import Mathlib

/-!
Verification development for the orchestration core of the Esdata_710
repository.  The repository contains two parallel implementations of the
scheduler stack:

* `src/esdata/` (`database.py`, `scheduler.py`, `models.py`), embedded below
  in the namespace `Es`;
* `src/esdata_run/` (`core/database.py`, `core/scheduler.py`,
  `core/scraper_adapter.py`, `models/main.py`), embedded below in the
  namespace `RunPkg` (adapter in `Adapter`).

Python-level semantics that matter here and are embedded explicitly:

* the SQLite store is modelled as a list of rows; `UPDATE ... WHERE c` is a
  `List.map` that rewrites exactly the rows satisfying `c`;
* `INSERT OR IGNORE` with the unique index on `(batch_id, task_key)` skips a
  row whose pair is already present (`src/esdata/database.py`);
* Python `a or b` on strings falls through to `b` when `a` is `None` or the
  empty string (used for `task.website_code or task.website`);
* `asyncio.wait` on an empty collection raises
  `ValueError("Set of coroutines/Futures is empty")`; the loop-step embedding
  returns that error explicitly where the source would hit it.
-/

set_option maxRecDepth 10000

namespace Esdata710

/-- Execution states supported by the platform (`TaskStatus` in
`src/esdata/models.py` and `src/esdata_run/models/main.py`; both files define
the same six values). -/
inductive TaskStatus where
  | pending
  | running
  | completed
  | failed
  | retrying
  | blocked
deriving DecidableEq, Repr

namespace Es

/-- A scraping task / database row for the `src/esdata` stack.  Field for
field this is `ScrapingTask` of `src/esdata/models.py` restricted to the
attributes the orchestration logic reads (timestamps are naturals, paths are
strings). -/
structure Task where
  scraperName : String
  website : String
  city : String
  operation : String
  product : String
  url : String
  order : Nat
  batchId : Option String := none
  status : TaskStatus := .pending
  attempts : Nat := 0
  maxAttempts : Nat := 3
  websiteCode : Option String := none
  cityCode : Option String := none
  operationCode : Option String := none
  productCode : Option String := none
  isDetail : Bool := false
  dependsOn : Option String := none
  dependencyPath : Option String := none
  outputPath : Option String := none
  startedAt : Option Nat := none
  errorMessage : Option String := none
deriving DecidableEq, Repr

/-- Python `a or b` where `a : Option String`: `None` and `""` are falsy. -/
def orElse (a : Option String) (b : String) : String :=
  match a with
  | some s => if s = "" then b else s
  | none => b

/-- The site code used by the scheduler: `task.website_code or task.website`. -/
def Task.site (t : Task) : String :=
  orElse t.websiteCode t.website

/-- The synthetic task key of `ScrapingTask.task_key` in
`src/esdata/models.py`: the listed tokens joined with `"::"`. -/
def Task.key (t : Task) : String :=
  String.intercalate "::"
    [ t.scraperName
    , orElse t.websiteCode t.website
    , orElse t.cityCode t.city
    , orElse t.operationCode t.operation
    , orElse t.productCode t.product
    , toString t.order
    , if t.isDetail then "detail" else "main" ]

/-! Store operations of `src/esdata/database.py` (`TaskRepository`).  The
database is a list of rows in insertion order. -/

/-- Row written by `insert_tasks`: only the listed columns are part of the
`INSERT`, so `started_at`, `dependency_path`, `output_path` and
`error_message` start out NULL. -/
def insertedRow (batchId : String) (t : Task) : Task :=
  { t with
    batchId := some batchId
    startedAt := none
    dependencyPath := none
    outputPath := none
    errorMessage := none }

/-- Does the store already hold a row with this `(batch_id, task_key)` pair
(the unique index `idx_tasks_unique`)? -/
def hasKey (db : List Task) (batchId : String) (key : String) : Bool :=
  db.any fun r => r.batchId = some batchId ∧ r.key = key

/-- One `INSERT OR IGNORE` of `insert_tasks`. -/
def insertOne (batchId : String) (db : List Task) (t : Task) : List Task :=
  if hasKey db batchId t.key then db else db ++ [insertedRow batchId t]

/-- `TaskRepository.insert_tasks` of `src/esdata/database.py`: each task is
inserted with `INSERT OR IGNORE`, so a row whose `(batch_id, task_key)` is
already present is skipped. -/
def insertTasks (db : List Task) (batchId : String) (ts : List Task) : List Task :=
  ts.foldl (insertOne batchId) db

/-- `TaskRepository.reset_running_tasks` of `src/esdata/database.py`:
`UPDATE ... SET status = 'pending', started_at = NULL WHERE batch_id = ? AND
status = 'running'`. -/
def resetRunningTasks (db : List Task) (batchId : String) : List Task :=
  db.map fun r =>
    if r.batchId = some batchId ∧ r.status = .running then
      { r with status := .pending, startedAt := none }
    else r

/-- `TaskRepository.next_execution_number` of `src/esdata/database.py`:
`candidate = desired; while candidate in taken: candidate += 1`.  The loop is
given `taken.length + 1` steps of fuel, which lemma
`nextExecutionNumber_not_mem` below shows is always enough. -/
def nextFreeFrom (taken : List Nat) : Nat → Nat → Nat
  | 0, c => c
  | fuel + 1, c => if c ∈ taken then nextFreeFrom taken fuel (c + 1) else c

def nextExecutionNumber (taken : List Nat) (desired : Nat) : Nat :=
  nextFreeFrom taken (taken.length + 1) desired

/-- `TaskRepository.mark_task_running` of `src/esdata/database.py`: set
`status = 'running'`, stamp `started_at`, leave `attempts` at
`COALESCE(attempts, 0)` (unchanged here, attempts are never NULL in the
model), keyed by `(batch_id, task_key)`. -/
def markTaskRunning (db : List Task) (t : Task) (now : Nat) : List Task :=
  db.map fun r =>
    if r.batchId = t.batchId ∧ r.key = t.key then
      { r with status := .running, startedAt := some now }
    else r

/-- `TaskRepository.mark_task_completed` of `src/esdata/database.py`. -/
def markTaskCompleted (db : List Task) (t : Task) (outputPath : Option String) :
    List Task :=
  db.map fun r =>
    if r.batchId = t.batchId ∧ r.key = t.key then
      { r with status := .completed, outputPath := outputPath }
    else r

/-- `TaskRepository.mark_task_failed` of `src/esdata/database.py`: the row
moves to `'retrying'` or `'failed'` and `attempts` is incremented in the same
`UPDATE`. -/
def markTaskFailed (db : List Task) (t : Task) (error : String)
    (willRetry : Bool) : List Task :=
  db.map fun r =>
    if r.batchId = t.batchId ∧ r.key = t.key then
      { r with
        status := if willRetry then .retrying else .failed
        errorMessage := some error
        attempts := r.attempts + 1 }
    else r

/-- The selection predicate of `release_detail_tasks`: `batch_id = ? AND
depends_on = ? AND is_detail = 1 AND status = 'blocked'`. -/
def releaseMatch (batchId : Option String) (mainKey : String) (r : Task) : Bool :=
  r.batchId = batchId ∧ r.dependsOn = some mainKey ∧ r.isDetail ∧
    r.status = .blocked

/-- `TaskRepository.release_detail_tasks` of `src/esdata/database.py`: the
matching rows are SELECTed first, then a single UPDATE sets them to
`'pending'` with `dependency_path` filled in, and the function returns tasks
materialised from the rows *as read before the update*. -/
def releaseDetailTasks (db : List Task) (mainTask : Task)
    (dependencyPath : String) : List Task × List Task :=
  let selected := db.filter (releaseMatch mainTask.batchId mainTask.key)
  if selected.isEmpty then (db, [])
  else
    let updated := db.map fun r =>
      if releaseMatch mainTask.batchId mainTask.key r then
        { r with status := .pending, dependencyPath := some dependencyPath }
      else r
    (updated, selected)

/-! Scheduler machine of `src/esdata/scheduler.py` (`OrchestratorRunner`).
The in-memory structures of `run_batch` are carried in an explicit state.
External inputs (the monotonic clock, the resource limiter's verdict, the
outcome of a child process) are parameters of the step functions. -/

/-- Static configuration of `OrchestratorRunner.run_batch`. -/
structure Config where
  maxParallel : Nat
  retryDelayMinutes : Nat
  primarySite : Option String
  rotationSites : List String
deriving Repr

/-- In-memory state of `run_batch`: the per-site primary deques, the detail
deque, the retry heap (kept sorted by due time, least first), the `running`
map (as the list of in-flight tasks) and `active_sites`, together with the
database rows and the two batch counters.  `rotIdx` is the cursor of
`itertools.cycle(rotation_sites)`. -/
structure State where
  db : List Task
  pendingMain : List (String × List Task)
  detailQueue : List Task
  retryHeap : List (Nat × Task)
  running : List Task
  activeSites : List String
  completedCount : Nat
  failedCount : Nat
  rotIdx : Nat
deriving Repr

/-- Look up a per-site deque; a missing site behaves like `defaultdict(deque)`
returning the empty deque. -/
def qGet (qs : List (String × List Task)) (site : String) : List Task :=
  match qs.find? (fun p => p.1 = site) with
  | some p => p.2
  | none => []

/-- Replace (or create) a per-site deque. -/
def qSet (qs : List (String × List Task)) (site : String) (q : List Task) :
    List (String × List Task) :=
  if qs.any (fun p => p.1 = site) then
    qs.map fun p => if p.1 = site then (site, q) else p
  else qs ++ [(site, q)]

/-- `pending_main[site].append(task)`. -/
def qAppend (qs : List (String × List Task)) (site : String) (t : Task) :
    List (String × List Task) :=
  qSet qs site (qGet qs site ++ [t])

/-- `heapq.heappush(retry_heap, (due, task))` on a heap modelled as a sorted
list: insert before the first entry with a strictly larger key. -/
def heapPush (heap : List (Nat × Task)) (e : Nat × Task) : List (Nat × Task) :=
  match heap with
  | [] => [e]
  | h :: rest => if e.1 < h.1 then e :: h :: rest else h :: heapPush rest e

/-- Heap-draining loop of `OrchestratorRunner._requeue_ready_retries`,
structurally recursive on the heap: pop every entry whose due time has
passed, reset its status to `'pending'` and append it to the detail deque or
to its site's primary deque. -/
def requeueLoop (now : Nat) :
    List (Nat × Task) → List Task → List (String × List Task) →
    List (Nat × Task) × List Task × List (String × List Task)
  | [], detailQueue, pendingMain => ([], detailQueue, pendingMain)
  | (due, t) :: rest, detailQueue, pendingMain =>
    if due ≤ now then
      let t := { t with status := TaskStatus.pending }
      if t.isDetail then requeueLoop now rest (detailQueue ++ [t]) pendingMain
      else requeueLoop now rest detailQueue (qAppend pendingMain t.site t)
    else ((due, t) :: rest, detailQueue, pendingMain)

/-- `OrchestratorRunner._requeue_ready_retries` of `src/esdata/scheduler.py`. -/
def requeueReadyRetries (now : Nat) (s : State) : State :=
  let r := requeueLoop now s.retryHeap s.detailQueue s.pendingMain
  { s with retryHeap := r.1, detailQueue := r.2.1, pendingMain := r.2.2 }

/-- `OrchestratorRunner._launch_task`: stamp the batch id, add the site to
`active_sites` (a Python set), mark the row `'running'` in the store, and
record the in-flight task. -/
def launchTask (batchId : String) (now : Nat) (t : Task) (s : State) : State :=
  let t := { t with batchId := some batchId }
  let s :=
    if t.site ∈ s.activeSites then s
    else { s with activeSites := s.activeSites ++ [t.site] }
  { s with
    db := markTaskRunning s.db t now
    running := s.running ++ [t] }

/-- The detail-priority loop of `schedule_next_task` in
`src/esdata/scheduler.py` (lines 93-99): up to `len(detail_queue)` times, pop
the head; launch it if its site is free, otherwise rotate it to the tail. -/
def detailScan (active : List String) : Nat → List Task →
    Option Task × List Task
  | 0, q => (none, q)
  | _ + 1, [] => (none, [])
  | n + 1, t :: q =>
    if t.site ∈ active then detailScan active n (q ++ [t])
    else (some t, q)

/-- The round-robin block of `schedule_next_task`: step the cycle cursor at
most `len(rotation_sites)` times and pick the first free site with a
non-empty primary deque.  Returns the chosen site (if any) and the new
cursor. -/
def rotationScan (cfg : Config) (s : State) : Nat → Nat → Option String × Nat
  | 0, idx => (none, idx)
  | tries + 1, idx =>
    if cfg.rotationSites.isEmpty then (none, idx)
    else
      let site := cfg.rotationSites.getD (idx % cfg.rotationSites.length) ""
      let idx := idx + 1
      if qGet s.pendingMain site ≠ [] ∧ site ∉ s.activeSites then
        (some site, idx)
      else rotationScan cfg s tries idx

/-- `schedule_next_task` of `src/esdata/scheduler.py`: requeue due retries,
stop if the parallelism cap is hit or the resource limiter refuses, then try
detail queue, priority site, and rotation in that order.  Returns the new
state and `true` iff a task was launched. -/
def scheduleNextTask (cfg : Config) (batchId : String) (now : Nat)
    (allowsNew : Bool) (s : State) : State × Bool :=
  let s := requeueReadyRetries now s
  if cfg.maxParallel ≤ s.running.length then (s, false)
  else if ¬allowsNew then (s, false)
  else
    match detailScan s.activeSites s.detailQueue.length s.detailQueue with
    | (some t, q) => (launchTask batchId now t { s with detailQueue := q }, true)
    | (none, q) =>
      let s := { s with detailQueue := q }
      match cfg.primarySite with
      | some ps =>
        if ps ∉ s.activeSites ∧ qGet s.pendingMain ps ≠ [] then
          match qGet s.pendingMain ps with
          | [] => (s, false)
          | t :: rest =>
            (launchTask batchId now t { s with pendingMain := qSet s.pendingMain ps rest }, true)
        else
          match rotationScan cfg s cfg.rotationSites.length s.rotIdx with
          | (some site, idx) =>
            match qGet s.pendingMain site with
            | [] => ({ s with rotIdx := idx }, false)
            | t :: rest =>
              (launchTask batchId now t
                { s with pendingMain := qSet s.pendingMain site rest, rotIdx := idx }, true)
          | (none, idx) => ({ s with rotIdx := idx }, false)
      | none =>
        match rotationScan cfg s cfg.rotationSites.length s.rotIdx with
        | (some site, idx) =>
          match qGet s.pendingMain site with
          | [] => ({ s with rotIdx := idx }, false)
          | t :: rest =>
            (launchTask batchId now t
              { s with pendingMain := qSet s.pendingMain site rest, rotIdx := idx }, true)
        | (none, idx) => ({ s with rotIdx := idx }, false)

/-- Remove the reaped task from `running` (`running.pop(key, None)`). -/
def removeRunning (running : List Task) (t : Task) : List Task :=
  running.filter fun r => ¬(r.key = t.key)

/-- `active_sites.discard(site_code)`. -/
def discardSite (active : List String) (site : String) : List String :=
  active.filter fun a => ¬(a = site)

/-- The success branch of the reap loop in `run_batch`
(`src/esdata/scheduler.py` lines 142-149): persist `'completed'`, bump the
completed counter, and if the task was a primary with an output path, release
its blocked detail rows and append the returned tasks to the detail deque. -/
def reapSuccess (t : Task) (outputPath : String) (s : State) : State :=
  let s := { s with
    running := removeRunning s.running t
    activeSites := discardSite s.activeSites t.site }
  let s := { s with
    db := markTaskCompleted s.db t (some outputPath)
    completedCount := s.completedCount + 1 }
  if ¬t.isDetail then
    let (db, released) := releaseDetailTasks s.db t outputPath
    { s with db := db, detailQueue := s.detailQueue ++ released }
  else s

/-- The failure branch of the reap loop in `run_batch`
(`src/esdata/scheduler.py` lines 150-159): `will_retry = attempts + 1 <
max_attempts`; persist `'retrying'` or `'failed'`; on retry bump the
in-memory attempt counter and push onto the heap with `due = now +
retry_delay * 60`; otherwise bump the failed counter. -/
def reapFailure (cfg : Config) (t : Task) (error : String) (now : Nat)
    (s : State) : State :=
  let s := { s with
    running := removeRunning s.running t
    activeSites := discardSite s.activeSites t.site }
  let willRetry := t.attempts + 1 < t.maxAttempts
  let s := { s with db := markTaskFailed s.db t error willRetry }
  if willRetry then
    let t := { t with attempts := t.attempts + 1 }
    { s with retryHeap := heapPush s.retryHeap (now + cfg.retryDelayMinutes * 60, t) }
  else
    { s with failedCount := s.failedCount + 1 }

/-- What the main loop of `run_batch` does next (lines 124-134 of
`src/esdata/scheduler.py`) once `schedule_next_task` has returned `False`:
with nothing running it requeues due retries and either finishes the batch
or sleeps for one second; with tasks in flight it awaits the first
completion. -/
inductive LoopAction where
  | finish
  | sleepOneSecond
  | awaitFirstCompletion (running : List Task)
deriving DecidableEq, Repr

/-- Is every in-memory queue empty (`not any(pending_main.values()) and not
detail_queue and not retry_heap`)? -/
def queuesEmpty (s : State) : Bool :=
  s.pendingMain.all (fun p => p.2.isEmpty) ∧ s.detailQueue.isEmpty ∧
    s.retryHeap.isEmpty

/-- The suspension decision of `run_batch` in `src/esdata/scheduler.py`. -/
def loopDecision (now : Nat) (s : State) : State × LoopAction :=
  if s.running.isEmpty then
    let s := requeueReadyRetries now s
    if s.running.isEmpty ∧ queuesEmpty s then (s, .finish)
    else (s, .sleepOneSecond)
  else (s, .awaitFirstCompletion s.running)

/-- Loading the in-memory queues from the store at the top of `run_batch`
(lines 69-79): terminal and blocked rows are skipped, `'pending'` and
`'retrying'` rows are enqueued, and `'running'` rows are dropped (they match
no branch). -/
def loadQueues (tasks : List Task) : State → State
  | s =>
    tasks.foldl
      (fun s t =>
        if t.status = .completed ∨ t.status = .failed then s
        else if t.status = .blocked then s
        else if t.status = .pending ∨ t.status = .retrying then
          if t.isDetail then { s with detailQueue := s.detailQueue ++ [t] }
          else { s with pendingMain := qAppend s.pendingMain t.site t }
        else s)
      s

/-- The initial in-memory state of `run_batch` for a store `db`: empty
queues filled by `loadQueues` from the batch's rows. -/
def initialState (db : List Task) (batchId : String) : State :=
  loadQueues (db.filter fun t => t.batchId = some batchId)
    { db := db
      pendingMain := []
      detailQueue := []
      retryHeap := []
      running := []
      activeSites := []
      completedCount := 0
      failedCount := 0
      rotIdx := 0 }

end Es

namespace RunPkg

/-- A scraping task / database row for the `src/esdata_run` stack
(`ScrapingTask` of `src/esdata_run/models/main.py`).  Its schema
(`core/database.py`) has no `dependency_path` and no `task_key` column; rows
are addressed by the autoincrement `id`. -/
structure Task where
  scraperName : String
  url : String
  order : Nat
  websiteCode : String
  cityCode : String
  operationCode : String
  productCode : String
  status : TaskStatus := .pending
  attempts : Nat := 0
  maxAttempts : Nat := 3
  batchId : Option String := none
  isDetail : Bool := false
  dependsOn : Option String := none
  startedAt : Option Nat := none
  errorMessage : Option String := none
  outputPath : Option String := none
  id : Option Nat := none
deriving DecidableEq, Repr

/-- `ScrapingTask.task_key` of `src/esdata_run/models/main.py`: unlike the
`src/esdata` variant, the key starts with the batch id. -/
def Task.key (t : Task) : String :=
  String.intercalate "::"
    [ (match t.batchId with | some b => b | none => "None")
    , t.websiteCode
    , t.cityCode
    , t.operationCode
    , t.productCode
    , toString t.order
    , if t.isDetail then "detail" else "main" ]

/-! Store operations of `src/esdata_run/core/database.py`. -/

/-- `TaskRepository.insert_tasks` of `src/esdata_run/core/database.py`: a
plain `INSERT` via `executemany`; the schema has no unique constraint on the
task identity, so every call appends all of its rows.  The autoincrement
primary key assigns consecutive ids starting above every existing id. -/
def insertTasks (db : List Task) (ts : List Task) : List Task :=
  let maxId := db.foldl (fun m r => max m (r.id.getD 0)) 0
  db ++ (ts.enum.map fun p => { p.2 with id := some (maxId + 1 + p.1) })

/-- `TaskRepository.reset_running_tasks` of `src/esdata_run/core/database.py`:
`UPDATE scraping_tasks SET status = 'pending' WHERE status = 'running'` —
no batch filter and `started_at` is left as it was. -/
def resetRunningTasks (db : List Task) : List Task :=
  db.map fun r =>
    if r.status = .running then { r with status := .pending } else r

/-- `TaskRepository.next_execution_number` of
`src/esdata_run/core/database.py`: return `desired` when it is unused,
otherwise `max(existing_numbers, default=0) + 1`. -/
def nextExecutionNumber (taken : List Nat) (desired : Nat) : Nat :=
  if desired ∈ taken then taken.foldl max 0 + 1 else desired

/-- `TaskRepository.mark_task_running` of `src/esdata_run/core/database.py`
(`WHERE id = ?`). -/
def markTaskRunning (db : List Task) (t : Task) (now : Nat) : List Task :=
  db.map fun r =>
    if r.id = t.id then { r with status := .running, startedAt := some now }
    else r

/-- `TaskRepository.mark_task_completed` of
`src/esdata_run/core/database.py`. -/
def markTaskCompleted (db : List Task) (t : Task) (outputPath : Option String) :
    List Task :=
  db.map fun r =>
    if r.id = t.id then { r with status := .completed, outputPath := outputPath }
    else r

/-- `TaskRepository.mark_task_failed` of `src/esdata_run/core/database.py`:
the stored `attempts` is overwritten with the in-memory `task.attempts`
(which `run_batch` increments before calling). -/
def markTaskFailed (db : List Task) (t : Task) (error : String)
    (willRetry : Bool) : List Task :=
  db.map fun r =>
    if r.id = t.id then
      { r with
        status := if willRetry then .retrying else .failed
        errorMessage := some error
        attempts := t.attempts }
    else r

/-- `TaskRepository.release_detail_tasks_for` of
`src/esdata_run/core/database.py`: SELECT the rows with `depends_on = ? AND
status = 'blocked'` (no batch filter), then UPDATE them to `'pending'`
writing the dependency path into the `output_path` column, and return tasks
built from the rows as read before the update. -/
def releaseDetailTasksFor (db : List Task) (mainKey : String)
    (dependencyPath : String) : List Task × List Task :=
  let selected := db.filter fun r =>
    r.dependsOn = some mainKey ∧ r.status = .blocked
  if selected.isEmpty then (db, [])
  else
    let ids : List (Option Nat) := selected.map fun r => r.id
    let updated := db.map fun r =>
      if r.id ∈ ids then
        { r with status := .pending, outputPath := some dependencyPath }
      else r
    (updated, selected)

/-! Scheduler machine of `src/esdata_run/core/scheduler.py`
(`OrchestratorRunner.run_batch`). -/

/-- Static configuration: `execution.max_parallel_scrapers`,
`execution.retry_delay_minutes` (floored at 1 in `__init__`),
`execution.priority_sites[0]` and the rotation list built from
`config.enabled_scrapers()`. -/
structure Config where
  maxParallel : Nat
  retryDelayMinutes : Nat
  primarySite : Option String
  rotationSites : List String
deriving Repr

/-- In-memory state of `run_batch` in `src/esdata_run/core/scheduler.py`. -/
structure State where
  db : List Task
  pendingMain : List (String × List Task)
  detailQueue : List Task
  retryHeap : List (Nat × Task)
  running : List Task
  activeSites : List String
  completedCount : Nat
  failedCount : Nat
  rotIdx : Nat
deriving Repr

/-- Per-site deque lookup (`defaultdict(deque)`). -/
def qGet (qs : List (String × List Task)) (site : String) : List Task :=
  match qs.find? (fun p => p.1 = site) with
  | some p => p.2
  | none => []

def qSet (qs : List (String × List Task)) (site : String) (q : List Task) :
    List (String × List Task) :=
  if qs.any (fun p => p.1 = site) then
    qs.map fun p => if p.1 = site then (site, q) else p
  else qs ++ [(site, q)]

def qAppend (qs : List (String × List Task)) (site : String) (t : Task) :
    List (String × List Task) :=
  qSet qs site (qGet qs site ++ [t])

/-- `heapq.heappush` on a heap modelled as a list sorted by due time. -/
def heapPush (heap : List (Nat × Task)) (e : Nat × Task) : List (Nat × Task) :=
  match heap with
  | [] => [e]
  | h :: rest => if e.1 < h.1 then e :: h :: rest else h :: heapPush rest e

/-- Heap-draining loop of `_requeue_ready_retries` in
`src/esdata_run/core/scheduler.py`, structurally recursive on the heap. -/
def requeueLoop (now : Nat) :
    List (Nat × Task) → List Task → List (String × List Task) →
    List (Nat × Task) × List Task × List (String × List Task)
  | [], detailQueue, pendingMain => ([], detailQueue, pendingMain)
  | (due, t) :: rest, detailQueue, pendingMain =>
    if due ≤ now then
      let t := { t with status := TaskStatus.pending }
      if t.isDetail then requeueLoop now rest (detailQueue ++ [t]) pendingMain
      else requeueLoop now rest detailQueue (qAppend pendingMain t.websiteCode t)
    else ((due, t) :: rest, detailQueue, pendingMain)

/-- `OrchestratorRunner._requeue_ready_retries` of
`src/esdata_run/core/scheduler.py`. -/
def requeueReadyRetries (now : Nat) (s : State) : State :=
  let r := requeueLoop now s.retryHeap s.detailQueue s.pendingMain
  { s with retryHeap := r.1, detailQueue := r.2.1, pendingMain := r.2.2 }

/-- `OrchestratorRunner._launch_task` of `src/esdata_run/core/scheduler.py`:
add `task.website_code` to `active_sites`, mark the row `'running'`, record
the in-flight task. -/
def launchTask (batchId : String) (now : Nat) (t : Task) (s : State) : State :=
  let t := { t with batchId := some batchId }
  let s :=
    if t.websiteCode ∈ s.activeSites then s
    else { s with activeSites := s.activeSites ++ [t.websiteCode] }
  { s with
    db := markTaskRunning s.db t now
    running := s.running ++ [t] }

/-- Round-robin over `rotation_sites` (`for _ in range(len(rotation_sites))`
stepping `itertools.cycle`). -/
def rotationScan (cfg : Config) (s : State) : Nat → Nat → Option String × Nat
  | 0, idx => (none, idx)
  | tries + 1, idx =>
    if cfg.rotationSites.isEmpty then (none, idx)
    else
      let site := cfg.rotationSites.getD (idx % cfg.rotationSites.length) ""
      let idx := idx + 1
      if site ∉ s.activeSites ∧ qGet s.pendingMain site ≠ [] then
        (some site, idx)
      else rotationScan cfg s tries idx

/-- `schedule_next_task` of `src/esdata_run/core/scheduler.py` (lines
112-141).  The decisive difference from the `src/esdata` variant: when
`pending_detail` is non-empty, its head is launched *without consulting*
`active_sites` (lines 121-125). -/
def scheduleNextTask (cfg : Config) (batchId : String) (now : Nat)
    (allowsNew : Bool) (s : State) : State × Bool :=
  let s := requeueReadyRetries now s
  if cfg.maxParallel ≤ s.running.length then (s, false)
  else if ¬allowsNew then (s, false)
  else
    match s.detailQueue with
    | t :: q => (launchTask batchId now t { s with detailQueue := q }, true)
    | [] =>
      let tryRotation (s : State) : State × Bool :=
        match rotationScan cfg s cfg.rotationSites.length s.rotIdx with
        | (some site, idx) =>
          match qGet s.pendingMain site with
          | [] => ({ s with rotIdx := idx }, false)
          | t :: rest =>
            (launchTask batchId now t
              { s with pendingMain := qSet s.pendingMain site rest, rotIdx := idx }, true)
        | (none, idx) => ({ s with rotIdx := idx }, false)
      match cfg.primarySite with
      | some ps =>
        if ps ∉ s.activeSites ∧ qGet s.pendingMain ps ≠ [] then
          match qGet s.pendingMain ps with
          | [] => (s, false)
          | t :: rest =>
            (launchTask batchId now t
              { s with pendingMain := qSet s.pendingMain ps rest }, true)
        else tryRotation s
      | none => tryRotation s

def removeRunning (running : List Task) (t : Task) : List Task :=
  running.filter fun r => ¬(r.key = t.key)

def discardSite (active : List String) (site : String) : List String :=
  active.filter fun a => ¬(a = site)

/-- The success branch of the reap loop in `run_batch`
(`src/esdata_run/core/scheduler.py` lines 164-174). -/
def reapSuccess (t : Task) (outputPath : String) (s : State) : State :=
  let s := { s with
    running := removeRunning s.running t
    activeSites := discardSite s.activeSites t.websiteCode }
  let s := { s with
    db := markTaskCompleted s.db t (some outputPath)
    completedCount := s.completedCount + 1 }
  if ¬t.isDetail then
    let (db, released) := releaseDetailTasksFor s.db t.key outputPath
    { s with db := db, detailQueue := s.detailQueue ++ released }
  else s

/-- The failure branch of the reap loop (lines 175-188): `task.attempts` is
incremented first, `will_retry = attempts < max_attempts`, then the row is
persisted and the task is pushed on the retry heap or the failed counter is
bumped. -/
def reapFailure (cfg : Config) (t : Task) (error : String) (now : Nat)
    (s : State) : State :=
  let s := { s with
    running := removeRunning s.running t
    activeSites := discardSite s.activeSites t.websiteCode }
  let t := { t with attempts := t.attempts + 1 }
  let willRetry := t.attempts < t.maxAttempts
  let s := { s with db := markTaskFailed s.db t error willRetry }
  if willRetry then
    { s with retryHeap := heapPush s.retryHeap (now + cfg.retryDelayMinutes * 60, t) }
  else
    { s with failedCount := s.failedCount + 1 }

inductive LoopAction where
  | finish
  | awaitFirstCompletion (running : List Task)
deriving DecidableEq, Repr

def queuesEmpty (s : State) : Bool :=
  s.pendingMain.all (fun p => p.2.isEmpty) ∧ s.detailQueue.isEmpty ∧
    s.retryHeap.isEmpty

/-- The suspension decision of `run_batch` in
`src/esdata_run/core/scheduler.py` (lines 144-154): once nothing more can be
scheduled, the loop either breaks (everything empty) or calls
`asyncio.wait(running_tasks.values(), ...)`.  `asyncio.wait` raises
`ValueError` when handed an empty collection, which is reachable
because the break condition also checks the retry heap. -/
def loopDecision (s : State) : Except String LoopAction :=
  if s.running.isEmpty ∧ queuesEmpty s then .ok .finish
  else if s.running.isEmpty then
    .error "ValueError: Set of coroutines/Futures is empty"
  else .ok (.awaitFirstCompletion s.running)

/-- Loading the in-memory queues at the top of `run_batch` (lines 89-101):
terminal and blocked rows are skipped, everything else (including `'running'`
rows) is enqueued by `task.website_code`. -/
def loadQueues (tasks : List Task) (s : State) : State :=
  tasks.foldl
    (fun s t =>
      if t.status = .completed ∨ t.status = .failed then s
      else if t.status = .blocked then s
      else if t.isDetail then { s with detailQueue := s.detailQueue ++ [t] }
      else { s with pendingMain := qAppend s.pendingMain t.websiteCode t })
    s

def initialState (db : List Task) (batchId : String) : State :=
  loadQueues (db.filter fun t => t.batchId = some batchId)
    { db := db
      pendingMain := []
      detailQueue := []
      retryHeap := []
      running := []
      activeSites := []
      completedCount := 0
      failedCount := 0
      rotIdx := 0 }

/-- Apply `schedule_next_task` and keep the state whether or not a launch
happened (the loop keeps calling it until it returns `False`). -/
def schedStep (cfg : Config) (batchId : String) (now : Nat) (allowsNew : Bool)
    (s : State) : State :=
  (scheduleNextTask cfg batchId now allowsNew s).1

end RunPkg

namespace Adapter

/-!
Embedding of `ScraperAdapter` in `src/esdata_run/core/scraper_adapter.py`.
The file system is a function from paths to `Option Nat`: `fs p = some n`
means the file exists with size `n`, `fs p = none` means it does not exist.
The child process is summarised by whether the interpreter could be spawned
and, if so, the exit code it returned.
-/

/-- Everything `ScraperAdapter.run` does that the scheduler can observe:
whether a child process was spawned, the exit code seen (when a child ran to
completion), and the Python-level result — the returned output path on
success, the `ScraperExecutionError` message otherwise. -/
structure RunOutcome where
  spawned : Bool
  exitCode : Option Int
  result : Except String String
deriving Repr

instance {α β : Type} [DecidableEq α] [DecidableEq β] :
    DecidableEq (Except α β) := fun a b =>
  match a, b with
  | .ok x, .ok y =>
    if h : x = y then .isTrue (by rw [h]) else .isFalse (by simp [h])
  | .error x, .error y =>
    if h : x = y then .isTrue (by rw [h]) else .isFalse (by simp [h])
  | .ok _, .error _ => .isFalse (by simp)
  | .error _, .ok _ => .isFalse (by simp)

instance : DecidableEq RunOutcome := fun a b =>
  decidable_of_iff
    (a.spawned = b.spawned ∧ a.exitCode = b.exitCode ∧ a.result = b.result)
    (by cases a; cases b; simp)

/-- The preflight test of line 44 of `src/esdata_run/core/scraper_adapter.py`:
`task.is_detail and dependency_path and not dependency_path.exists()` (a
`None` or empty dependency path is falsy, so it does *not* trigger the
check). -/
def preflightRejects (isDetail : Bool) (dependencyPath : Option String)
    (fs : String → Option Nat) : Bool :=
  isDetail &&
    (match dependencyPath with
     | some d => !(d = "") && (fs d).isNone
     | none => false)

/-- `ScraperAdapter.run` of `src/esdata_run/core/scraper_adapter.py`:

1. missing script → error, nothing spawned;
2. preflight (line 44): a detail task whose `dependency_path` is truthy but
   does not exist → error, nothing spawned;
3. `Popen`: a missing interpreter → `FileNotFoundError` → error;
4. non-zero exit code → error;
5. `_ensure_output_file` (lines 140-150): the declared output must exist
   with size > 0, else error; on success the output path is returned. -/
def run (scriptExists interpreterFound : Bool) (exitCode : Int)
    (fs : String → Option Nat) (isDetail : Bool)
    (dependencyPath : Option String) (outputFile : String)
    (scraperName : String) : RunOutcome :=
  if ¬scriptExists then
    { spawned := false, exitCode := none
      result := .error ("Scraper no encontrado: " ++ scraperName) }
  else if preflightRejects isDetail dependencyPath fs then
    { spawned := false, exitCode := none
      result := .error "Archivo de dependencia para scraper de detalle no disponible" }
  else if ¬interpreterFound then
    { spawned := false, exitCode := none
      result := .error "Interprete de Python no encontrado" }
  else if exitCode ≠ 0 then
    { spawned := true, exitCode := some exitCode
      result := .error ("El scraper " ++ scraperName ++ " fallo") }
  else
    match fs outputFile with
    | some n =>
      if 0 < n then
        { spawned := true, exitCode := some 0, result := .ok outputFile }
      else
        { spawned := true, exitCode := some 0
          result := .error ("El scraper " ++ scraperName ++
            " no genero un archivo de salida valido") }
    | none =>
      { spawned := true, exitCode := some 0
        result := .error ("El scraper " ++ scraperName ++
          " no genero un archivo de salida valido") }

/-- `ScraperAdapter._prepare_environment`: the `updates` dictionary, with
`None` values dropped by the final dict comprehension.  The
`SCRAPER_URL_LIST_FILE` entry is added only when `dependency_path` is
truthy. -/
def prepareEnvironment (isDetail : Bool) (outputFile baseDir : String)
    (batchId : Option String)
    (websiteCode cityCode operationCode productCode : Option String)
    (url : Option String) (dependencyPath : Option String)
    (maxPages rateLimit : Option String) : List (String × String) :=
  let updates : List (String × Option String) :=
    [ ("SCRAPER_MODE", some (if isDetail then "detail" else "url"))
    , ("SCRAPER_OUTPUT_FILE", some outputFile)
    , ("SCRAPER_BASE_DIR", some baseDir)
    , ("SCRAPER_BATCH_ID", some (batchId.getD ""))
    , ("SCRAPER_WEBSITE_CODE", websiteCode)
    , ("SCRAPER_CITY_CODE", cityCode)
    , ("SCRAPER_OPERATION_CODE", operationCode)
    , ("SCRAPER_PRODUCT_CODE", productCode)
    , ("SCRAPER_INPUT_URL", some (url.getD "")) ]
    ++ (match dependencyPath with
        | some d => if d = "" then [] else [("SCRAPER_URL_LIST_FILE", some d)]
        | none => [])
    ++ (match maxPages with
        | some v => [("SCRAPER_MAX_PAGES", some v)]
        | none => [])
    ++ (match rateLimit with
        | some v => [("SCRAPER_RATE_LIMIT", some v)]
        | none => [])
  updates.filterMap fun p =>
    match p.2 with
    | some v => some (p.1, v)
    | none => none

/-- Dictionary lookup in the prepared environment. -/
def envLookup (env : List (String × String)) (k : String) : Option String :=
  match env.find? (fun p => p.1 = k) with
  | some p => some p.2
  | none => none

end Adapter

namespace Planner

/-!
Batch naming, common to `prepare_batch` in `src/esdata/scheduler.py` (lines
45-59) and `src/esdata_run/core/scheduler.py` (lines 53-75).
-/

/-- Desired execution number: `1 if now.day <= 15 else 2`. -/
def desiredExecutionNumber (day : Nat) : Nat :=
  if day ≤ 15 then 1 else 2

/-- Python `f"{n:02d}"` for naturals. -/
def pad2 (n : Nat) : String :=
  if n < 10 then "0" ++ toString n else toString n

/-- `batch_id = f"{month_year}_{execution_number:02d}"`. -/
def formatBatchId (monthYear : String) (executionNumber : Nat) : String :=
  monthYear ++ "_" ++ pad2 executionNumber

end Planner

namespace Fix

/-!
Concrete stores, configurations and machine states used by the evaluation
theorems.  The shapes follow the planner (`url_loader.py`): a primary row is
created `'pending'`, its companion detail row `'blocked'` with `depends_on`
set to the primary's key.
-/

/-- A pending primary task for the `src/esdata` stack, with `max_attempts =
1` so that its first failure is terminal. -/
def esPrimary : Es.Task :=
  { scraperName := "inm24"
    website := "Inmuebles24"
    city := "Guadalajara"
    operation := "Venta"
    product := "Departamentos"
    url := "https://example.com/u1"
    order := 1
    batchId := some "sep25_01"
    status := .pending
    attempts := 0
    maxAttempts := 1
    websiteCode := some "Inm24"
    cityCode := some "Gdl"
    operationCode := some "Ven"
    productCode := some "Dep"
    isDetail := false }

/-- The blocked detail companion of `esPrimary`. -/
def esDetail : Es.Task :=
  { esPrimary with
    scraperName := "inm24_det"
    isDetail := true
    status := .blocked
    dependsOn := some esPrimary.key }

/-- Scheduler configuration for the `src/esdata` machine: no priority site,
one rotation site. -/
def esCfg : Es.Config :=
  { maxParallel := 2
    retryDelayMinutes := 30
    primarySite := none
    rotationSites := ["Inm24"] }

/-- Store for the C2 scenario: one primary (`max_attempts = 1`) and its
blocked detail. -/
def c2Db : List Es.Task := [esPrimary, esDetail]

/-- Initial `run_batch` state for `c2Db`. -/
def c2S0 : Es.State := Es.initialState c2Db "sep25_01"

/-- After the first admission step: the primary has been launched. -/
def c2S1 : Es.State := (Es.scheduleNextTask esCfg "sep25_01" 0 true c2S0).1

/-- After the primary's child fails and the failure is reaped; `attempts + 1
= 1 = max_attempts`, so the failure is terminal. -/
def c2SF : Es.State := Es.reapFailure esCfg esPrimary "exit 2" 5 c2S1

/-- A pending detail task for the `src/esdata_run` stack, as the release
operation would leave it (`status = 'pending'`). -/
def runDetail1 : RunPkg.Task :=
  { scraperName := "inm24_det"
    url := "https://example.com/u1"
    order := 1
    websiteCode := "Inm24"
    cityCode := "Gdl"
    operationCode := "Ven"
    productCode := "Dep"
    status := .pending
    attempts := 0
    maxAttempts := 3
    batchId := some "sep25_01"
    isDetail := true
    dependsOn := some "sep25_01::Inm24::Gdl::Ven::Dep::1::main"
    id := some 3 }

/-- A second pending detail task for the same site. -/
def runDetail2 : RunPkg.Task :=
  { runDetail1 with
    order := 2
    dependsOn := some "sep25_01::Inm24::Gdl::Ven::Dep::2::main"
    id := some 4 }

/-- The two completed primaries the details of `c1Db` descend from. -/
def runPrimary1 : RunPkg.Task :=
  { runDetail1 with
    scraperName := "inm24"
    isDetail := false
    status := .completed
    dependsOn := none
    outputPath := some "/data/Inm24/Gdl/Ven/Dep/sep25/01/Inm24URL_Gdl_Ven_Dep_sep25_01.csv"
    id := some 1 }

def runPrimary2 : RunPkg.Task :=
  { runPrimary1 with order := 2, id := some 2 }

/-- Scheduler configuration for the `src/esdata_run` machine. -/
def runCfg : RunPkg.Config :=
  { maxParallel := 4
    retryDelayMinutes := 30
    primarySite := none
    rotationSites := ["Inm24"] }

/-- Store for the C1 scenario: a resumed batch in which both primaries are
completed and both details are pending (the state the store is left in when
a run is interrupted after the primaries finished). -/
def c1Db : List RunPkg.Task := [runPrimary1, runPrimary2, runDetail1, runDetail2]

def c1S0 : RunPkg.State := RunPkg.initialState c1Db "sep25_01"

/-- First admission step: `schedule_next_task` launches the head of
`pending_detail`. -/
def c1S1 : RunPkg.State := RunPkg.schedStep runCfg "sep25_01" 0 true c1S0

/-- Second admission step: the site `Inm24` is now in `active_sites`, but
the detail branch launches the next detail anyway. -/
def c1S2 : RunPkg.State := RunPkg.schedStep runCfg "sep25_01" 1 true c1S1

/-- The same two-pending-details scenario for the `src/esdata` machine. -/
def esDetail1 : Es.Task :=
  { esPrimary with
    scraperName := "inm24_det"
    isDetail := true
    status := .pending
    dependsOn := some esPrimary.key
    maxAttempts := 3
    dependencyPath := some "/data/Inm24/Gdl/Ven/Dep/sep25/01/Inm24URL_Gdl_Ven_Dep_sep25_01.csv" }

def esDetail2 : Es.Task := { esDetail1 with order := 2 }

def esC1Db : List Es.Task := [esDetail1, esDetail2]

def esC1S0 : Es.State := Es.initialState esC1Db "sep25_01"

def esC1S1 : Es.State := (Es.scheduleNextTask esCfg "sep25_01" 0 true esC1S0).1

def esC1S2 : Es.State := (Es.scheduleNextTask esCfg "sep25_01" 1 true esC1S1).1

/-- Store for the C3 scenario (`src/esdata_run`): a single pending primary
with retries left. -/
def c3Primary : RunPkg.Task :=
  { runPrimary1 with
    status := .pending
    outputPath := none
    attempts := 0
    maxAttempts := 3
    id := some 1 }

def c3Db : List RunPkg.Task := [c3Primary]

def c3S0 : RunPkg.State := RunPkg.initialState c3Db "sep25_01"

/-- The primary is launched. -/
def c3S1 : RunPkg.State := RunPkg.schedStep runCfg "sep25_01" 0 true c3S0

/-- Its child fails; one attempt used out of three, so the task goes on the
retry heap with `due = 10 + 30 * 60`. -/
def c3S2 : RunPkg.State := RunPkg.reapFailure runCfg c3Primary "exit 2" 10 c3S1

/-- A further admission pass at `now = 20` launches nothing: the retry is
not due, and every queue is empty. -/
def c3S3 : RunPkg.State := RunPkg.schedStep runCfg "sep25_01" 20 true c3S2

/-- The same single-retry scenario on the `src/esdata` machine. -/
def esC3Primary : Es.Task := { esPrimary with maxAttempts := 3 }

def esC3S0 : Es.State := Es.initialState [esC3Primary] "sep25_01"

def esC3S1 : Es.State := (Es.scheduleNextTask esCfg "sep25_01" 0 true esC3S0).1

def esC3S2 : Es.State := Es.reapFailure esCfg esC3Primary "exit 2" 10 esC3S1

def esC3S3 : Es.State := (Es.scheduleNextTask esCfg "sep25_01" 20 true esC3S2).1

/-- A running row with a stamped `started_at`, for the C5 counterexample. -/
def runRunningRow : RunPkg.Task :=
  { runPrimary1 with status := .running, outputPath := none, startedAt := some 5 }

/-- An `src/esdata` running row and a bystander row for the C5 witness. -/
def esRunningRow : Es.Task :=
  { esPrimary with status := .running, startedAt := some 7, attempts := 2 }

def esPendingRow : Es.Task := { esPrimary with order := 2 }

/-- A store for the C4 and C10 witnesses: one completed primary (about to be
reaped) and its blocked detail. -/
def c4Primary : Es.Task := { esPrimary with maxAttempts := 3 }

def c4Detail : Es.Task :=
  { c4Primary with
    scraperName := "inm24_det"
    isDetail := true
    status := .blocked
    dependsOn := some c4Primary.key }

def c4Db : List Es.Task := [c4Primary, c4Detail]

/-- The machine state in which `c4Primary` is running and about to succeed. -/
def c4S : Es.State :=
  { db := Es.markTaskRunning c4Db c4Primary 3
    pendingMain := [("Inm24", [])]
    detailQueue := []
    retryHeap := []
    running := [c4Primary]
    activeSites := ["Inm24"]
    completedCount := 0
    failedCount := 0
    rotIdx := 1 }

/-- The declared output path of `c4Primary`. -/
def c4Out : String := "/data/Inm24/Gdl/Ven/Dep/sep25/01/Inm24URL_Gdl_Ven_Dep_sep25_01.csv"

end Fix

/-!
Theorems.  Each claim of the specification audit is settled by exactly one
theorem below (plus a witness where the theorem carries hypotheses).
-/

/-- C1: the site-exclusivity claim fails on `src/esdata_run/core/scheduler.py`.
Starting `run_batch` on a resumed batch whose store holds two pending detail
items of the same site (`c1Db`), two consecutive `schedule_next_task` calls
launch both of them — lines 121-125 launch the head of `pending_detail`
without consulting `active_sites` — so two items with site code `"Inm24"`
are `running` at once and both store rows are marked `'running'`.  The
`src/esdata/scheduler.py` machine on the same scenario rotates the busy-site
detail to the tail and keeps a single item in flight, as the claim states. -/
theorem C1_esdata_run_launches_detail_on_busy_site :
    (Fix.c1S2.running.map fun t => t.websiteCode) = ["Inm24", "Inm24"] ∧
    Fix.c1S2.activeSites = ["Inm24"] ∧
    ((Fix.c1S2.db.filter fun r => r.status = .running).map fun r => r.websiteCode)
      = ["Inm24", "Inm24"] ∧
    (Fix.esC1S2.running.map fun t => t.site) = ["Inm24"] ∧
    (Fix.esC1S2.detailQueue.map fun t => t.order) = [2] := by decide

/-- C3: in the state with nothing running, all queues empty and one
future-due retry on the heap — reached here through launch, failure with
retries left, and one more admission pass — `run_batch` of
`src/esdata_run/core/scheduler.py` does not break (the retry heap is
non-empty) and calls `asyncio.wait` on the empty `running_tasks`, which
raises `ValueError` instead of sleeping; the `src/esdata/scheduler.py` loop
at the analogous state sleeps for one second as the claim states. -/
theorem C3_empty_wait_raises_valueerror :
    RunPkg.loopDecision Fix.c3S3 =
      .error "ValueError: Set of coroutines/Futures is empty" ∧
    Fix.c3S3.running = [] ∧
    (Fix.c3S3.retryHeap.map fun p => p.1) = [1810] ∧
    RunPkg.queuesEmpty Fix.c3S3 = false ∧
    (Es.loopDecision 20 Fix.esC3S3).2 = .sleepOneSecond := by decide

/-- C2 counterexample: after the primary `esPrimary` (with `max_attempts =
1`) fails terminally and the failure is reaped, its dependent detail row is
still `'blocked'` with no error message, the batch's failed counter counts
only the primary, no row anywhere carries the reason `"upstream failed"`,
and the detail was never enqueued or launched — contradicting the claim that
the detail is marked failed with reason `"upstream failed"` and counted. -/
theorem C2_no_upstream_failed_cascade_counterexample :
    ((Fix.c2SF.db.filter fun r => r.isDetail).map fun r => (r.status, r.errorMessage))
      = [(TaskStatus.blocked, none)] ∧
    Fix.c2SF.failedCount = 1 ∧
    (Fix.c2SF.db.all fun r => !(decide (r.errorMessage = some "upstream failed"))) = true ∧
    Fix.c2SF.detailQueue = [] ∧
    Fix.c2SF.running = [] ∧
    Fix.c2SF.retryHeap = [] := by decide

/-- C2 amended: when an item fails terminally, both reap implementations
(`run_batch` in `src/esdata/scheduler.py` and in
`src/esdata_run/core/scheduler.py`) leave every other row — in particular a
blocked dependent detail — untouched, increment the failed counter by
exactly one (for the failing item alone), leave the detail queue and retry
heap unchanged, and start nothing new; no `"upstream failed"` reason is ever
recorded and the blocked detail is never launched. -/
theorem C2_terminal_failure_leaves_detail_blocked
    (cfg : Es.Config) (t r : Es.Task) (e : String) (now : Nat) (s : Es.State)
    (rcfg : RunPkg.Config) (rt rr : RunPkg.Task) (re : String) (rnow : Nat)
    (rs : RunPkg.State)
    (hterm : t.maxAttempts ≤ t.attempts + 1)
    (hr : r ∈ s.db) (hkey : ¬r.key = t.key)
    (hrterm : rt.maxAttempts ≤ rt.attempts + 1)
    (hrr : rr ∈ rs.db) (hid : ¬rr.id = rt.id) :
    (r ∈ (Es.reapFailure cfg t e now s).db ∧
     (Es.reapFailure cfg t e now s).failedCount = s.failedCount + 1 ∧
     (Es.reapFailure cfg t e now s).detailQueue = s.detailQueue ∧
     (Es.reapFailure cfg t e now s).retryHeap = s.retryHeap ∧
     ∀ x ∈ (Es.reapFailure cfg t e now s).running, x ∈ s.running) ∧
    (rr ∈ (RunPkg.reapFailure rcfg rt re rnow rs).db ∧
     (RunPkg.reapFailure rcfg rt re rnow rs).failedCount = rs.failedCount + 1 ∧
     (RunPkg.reapFailure rcfg rt re rnow rs).detailQueue = rs.detailQueue ∧
     (RunPkg.reapFailure rcfg rt re rnow rs).retryHeap = rs.retryHeap ∧
     ∀ x ∈ (RunPkg.reapFailure rcfg rt re rnow rs).running, x ∈ rs.running) := by
  constructor
  · have hnr : ¬(t.attempts + 1 < t.maxAttempts) := by omega
    refine ⟨?_, ?_, ?_, ?_, ?_⟩
    · simp only [Es.reapFailure, if_neg hnr, Es.markTaskFailed]
      have := List.mem_map_of_mem
        (fun x : Es.Task =>
          if x.batchId = t.batchId ∧ x.key = t.key then
            { x with
              status := if t.attempts + 1 < t.maxAttempts then .retrying else .failed
              errorMessage := some e
              attempts := x.attempts + 1 }
          else x) hr
      simpa [hkey] using this
    · simp [Es.reapFailure, if_neg hnr]
    · simp [Es.reapFailure, if_neg hnr]
    · simp [Es.reapFailure, if_neg hnr]
    · intro x hx
      simp only [Es.reapFailure, if_neg hnr, Es.removeRunning] at hx
      exact (List.mem_filter.mp hx).1
  · have hnr : ¬(rt.attempts + 1 < rt.maxAttempts) := by omega
    refine ⟨?_, ?_, ?_, ?_, ?_⟩
    · simp only [RunPkg.reapFailure, if_neg hnr, RunPkg.markTaskFailed]
      have := List.mem_map_of_mem
        (fun x : RunPkg.Task =>
          if x.id = rt.id then
            { x with
              status := if rt.attempts + 1 < rt.maxAttempts then .retrying else .failed
              errorMessage := some re
              attempts := rt.attempts + 1 }
          else x) hrr
      simpa [hid] using this
    · simp [RunPkg.reapFailure, if_neg hnr]
    · simp [RunPkg.reapFailure, if_neg hnr]
    · simp [RunPkg.reapFailure, if_neg hnr]
    · intro x hx
      simp only [RunPkg.reapFailure, if_neg hnr, RunPkg.removeRunning] at hx
      exact (List.mem_filter.mp hx).1

/-- C2 witness: the amended theorem applied to the concrete terminal-failure
scenarios of the fixtures. -/
theorem C2_terminal_failure_leaves_detail_blocked_witness :
    Fix.esDetail ∈ (Es.reapFailure Fix.esCfg Fix.esPrimary "exit 2" 5 Fix.c2S1).db ∧
    Fix.runDetail1 ∈
      (RunPkg.reapFailure Fix.runCfg { Fix.c3Primary with maxAttempts := 1 }
        "exit 2" 5 Fix.c1S0).db :=
  have h := C2_terminal_failure_leaves_detail_blocked
    Fix.esCfg Fix.esPrimary Fix.esDetail "exit 2" 5 Fix.c2S1
    Fix.runCfg { Fix.c3Primary with maxAttempts := 1 } Fix.runDetail1 "exit 2" 5
    Fix.c1S0 (by decide) (by decide) (by decide) (by decide) (by decide) (by decide)
  ⟨h.1.1, h.2.1⟩

/-- C5 counterexample: `reset_running_tasks` of
`src/esdata_run/core/database.py` rewrites a crashed `'running'` row to
`'pending'` but leaves `started_at` stamped (here `some 5`), contradicting
the claim that `started_at` is cleared. -/
theorem C5_startedAt_not_cleared_counterexample :
    ((RunPkg.resetRunningTasks [Fix.runRunningRow]).map fun r => (r.status, r.startedAt))
      = [(TaskStatus.pending, some 5)] ∧
    ((RunPkg.resetRunningTasks [Fix.runRunningRow]).all fun r =>
      decide (r.startedAt = none)) = false := by decide

/-- C5 amended: on open, `reset_running_tasks` of `src/esdata/database.py`
rewrites exactly the batch's `'running'` rows to `'pending'` with
`started_at` cleared and `attempts` untouched, leaving every other row
unchanged; the `src/esdata_run/core/database.py` variant rewrites every
`'running'` row (of any batch) to `'pending'` but leaves `started_at` as it
was, likewise not incrementing `attempts` and not touching other rows. -/
theorem C5_startup_recovery_amended
    (db : List Es.Task) (b : String) (i : Nat) (r : Es.Task)
    (rdb : List RunPkg.Task) (j : Nat) (rr : RunPkg.Task)
    (h : db[i]? = some r) (hj : rdb[j]? = some rr) :
    (Es.resetRunningTasks db b)[i]? =
      some (if r.batchId = some b ∧ r.status = .running
        then { r with status := .pending, startedAt := none } else r) ∧
    (RunPkg.resetRunningTasks rdb)[j]? =
      some (if rr.status = .running then { rr with status := .pending } else rr) := by
  constructor
  · simp [Es.resetRunningTasks, List.getElem?_map, h]
  · simp [RunPkg.resetRunningTasks, List.getElem?_map, hj]

/-- C5 witness: the amended theorem applied to a concrete running row of
each store. -/
theorem C5_startup_recovery_amended_witness :
    (Es.resetRunningTasks [Fix.esRunningRow, Fix.esPendingRow] "sep25_01")[0]? =
      some { Fix.esRunningRow with status := .pending, startedAt := none } ∧
    (RunPkg.resetRunningTasks [Fix.runRunningRow])[0]? =
      some { Fix.runRunningRow with status := .pending } := by
  have h := C5_startup_recovery_amended [Fix.esRunningRow, Fix.esPendingRow]
    "sep25_01" 0 Fix.esRunningRow [Fix.runRunningRow] 0 Fix.runRunningRow rfl rfl
  exact ⟨by rw [h.1]; decide, by rw [h.2]; decide⟩

/-- Correctness of the `while candidate in taken` loop of
`src/esdata/database.py`, given enough fuel to reach a free number. -/
theorem nextFreeFrom_correct (taken : List Nat) :
    ∀ fuel c, (∃ k, k < fuel ∧ c + k ∉ taken) →
      Es.nextFreeFrom taken fuel c ∉ taken ∧
      c ≤ Es.nextFreeFrom taken fuel c ∧
      ∀ m, c ≤ m → m < Es.nextFreeFrom taken fuel c → m ∈ taken := by
  intro fuel
  induction fuel with
  | zero =>
    intro c h
    obtain ⟨k, hk, _⟩ := h
    omega
  | succ f ih =>
    intro c h
    obtain ⟨k, hk, hnot⟩ := h
    by_cases hc : c ∈ taken
    · have hk0 : k ≠ 0 := by
        intro hk0
        rw [hk0] at hnot
        simpa using hnot hc
      have hrec := ih (c + 1) ⟨k - 1, by omega, by
        have heq : c + 1 + (k - 1) = c + k := by omega
        rw [heq]
        exact hnot⟩
      rw [Es.nextFreeFrom, if_pos hc]
      refine ⟨hrec.1, by omega, ?_⟩
      intro m hm hlt
      rcases Nat.eq_or_lt_of_le hm with heq | hlt2
      · rw [← heq]; exact hc
      · exact hrec.2.2 m (by omega) hlt
    · rw [Es.nextFreeFrom, if_neg hc]
      exact ⟨hc, Nat.le_refl _, fun m hm hlt => by omega⟩

/-- Pigeonhole: among the `taken.length + 1` numbers `c, c+1, …`, one is not
in `taken`. -/
theorem exists_unused_number (taken : List Nat) (c : Nat) :
    ∃ k, k ≤ taken.length ∧ c + k ∉ taken := by
  by_contra hAll
  push_neg at hAll
  have hsub : (Finset.range (taken.length + 1)).image (fun k => c + k) ⊆
      taken.toFinset := by
    intro x hx
    rw [Finset.mem_image] at hx
    obtain ⟨k, hk, rfl⟩ := hx
    rw [Finset.mem_range] at hk
    rw [List.mem_toFinset]
    exact hAll k (by omega)
  have hcard := Finset.card_le_card hsub
  rw [Finset.card_image_of_injective _ (fun a b hab => by omega)] at hcard
  rw [Finset.card_range] at hcard
  have hlen := taken.toFinset_card_le
  omega

/-- C6 counterexample: with recorded execution numbers `{1, 3}` and desired
number `1`, the smallest unused number `≥ 1` is `2` (as
`src/esdata/database.py` returns), but `next_execution_number` of
`src/esdata_run/core/database.py` returns `max(existing) + 1 = 4`. -/
theorem C6_next_execution_number_counterexample :
    RunPkg.nextExecutionNumber [1, 3] 1 = 4 ∧
    Es.nextExecutionNumber [1, 3] 1 = 2 ∧
    (2 ∉ [1, 3] ∧ 1 ≤ 2) ∧
    RunPkg.nextExecutionNumber [1, 3] 1 ≠ 2 := by decide

/-- C6 amended: `next_execution_number` of `src/esdata/database.py` returns
the smallest number `≥ desired` not among the recorded execution numbers;
the `src/esdata_run/core/database.py` variant returns an unused number
`≥ desired` — namely `desired` itself when free and otherwise
`max(existing) + 1` — which need not be the smallest (it skips gaps).  In
both stacks `batch_id` is then formed as `month_year ++ "_" ++ pad2 n`. -/
theorem C6_batch_numbering_amended (taken : List Nat) (desired : Nat) :
    (desired ≤ Es.nextExecutionNumber taken desired ∧
     Es.nextExecutionNumber taken desired ∉ taken ∧
     ∀ m, desired ≤ m → m < Es.nextExecutionNumber taken desired → m ∈ taken) ∧
    (desired ≤ RunPkg.nextExecutionNumber taken desired ∧
     RunPkg.nextExecutionNumber taken desired ∉ taken) ∧
    (∀ monthYear, Planner.formatBatchId monthYear (Es.nextExecutionNumber taken desired)
      = monthYear ++ "_" ++ Planner.pad2 (Es.nextExecutionNumber taken desired)) := by
  have hfold_init : ∀ (l : List Nat) (a : Nat), a ≤ l.foldl max a := by
    intro l
    induction l with
    | nil => intro a; exact Nat.le_refl a
    | cons b tl ih =>
      intro a
      calc a ≤ max a b := Nat.le_max_left a b
        _ ≤ tl.foldl max (max a b) := ih (max a b)
  have hfold_mem : ∀ (l : List Nat) (a x : Nat), x ∈ l → x ≤ l.foldl max a := by
    intro l
    induction l with
    | nil => intro a x hx; simp at hx
    | cons b tl ih =>
      intro a x hx
      rcases List.mem_cons.mp hx with rfl | hx
      · calc x ≤ max a x := Nat.le_max_right a x
          _ ≤ tl.foldl max (max a x) := hfold_init tl (max a x)
      · exact ih (max a b) x hx
  refine ⟨?_, ?_, fun _ => rfl⟩
  · obtain ⟨k, hk, hnot⟩ := exists_unused_number taken desired
    have h := nextFreeFrom_correct taken (taken.length + 1) desired
      ⟨k, by omega, hnot⟩
    exact ⟨h.2.1, h.1, h.2.2⟩
  · rw [RunPkg.nextExecutionNumber]
    by_cases hd : desired ∈ taken
    · rw [if_pos hd]
      refine ⟨?_, ?_⟩
      · have := hfold_mem taken 0 desired hd
        omega
      · intro hmem
        have := hfold_mem taken 0 _ hmem
        omega
    · rw [if_neg hd]
      exact ⟨Nat.le_refl _, hd⟩

/-- C6 witness: the amended theorem evaluated at the counterexample input. -/
theorem C6_batch_numbering_amended_witness :
    1 ≤ Es.nextExecutionNumber [1, 3] 1 ∧
    Es.nextExecutionNumber [1, 3] 1 ∉ [1, 3] ∧
    1 ≤ RunPkg.nextExecutionNumber [1, 3] 1 ∧
    RunPkg.nextExecutionNumber [1, 3] 1 ∉ [1, 3] ∧
    Planner.formatBatchId "sep25" (Es.nextExecutionNumber [1, 3] 1)
      = "sep25" ++ "_" ++ Planner.pad2 (Es.nextExecutionNumber [1, 3] 1) :=
  have h := C6_batch_numbering_amended [1, 3] 1
  ⟨h.1.1, h.1.2.1, h.2.1.1, h.2.1.2, h.2.2 "sep25"⟩

/-- Presence of a `(batch_id, task_key)` pair is preserved by a single
`INSERT OR IGNORE`. -/
theorem hasKey_insertOne (db : List Es.Task) (b : String) (t : Es.Task)
    (k : String) (h : Es.hasKey db b k = true) :
    Es.hasKey (Es.insertOne b db t) b k = true := by
  rw [Es.insertOne]
  by_cases hc : Es.hasKey db b t.key = true
  · rw [if_pos hc]; exact h
  · rw [if_neg hc]
    rw [Es.hasKey] at h ⊢
    rw [List.any_append, h, Bool.true_or]

/-- Presence of a `(batch_id, task_key)` pair is preserved by
`insert_tasks`. -/
theorem hasKey_insertTasks (b : String) (k : String) :
    ∀ (ts : List Es.Task) (db : List Es.Task), Es.hasKey db b k = true →
      Es.hasKey (Es.insertTasks db b ts) b k = true := by
  intro ts
  induction ts with
  | nil => intro db h; exact h
  | cons t tl ih =>
    intro db h
    exact ih (Es.insertOne b db t) (hasKey_insertOne db b t k h)

/-- After `insertOne`, the inserted task's pair is present. -/
theorem hasKey_insertOne_self (db : List Es.Task) (b : String) (t : Es.Task) :
    Es.hasKey (Es.insertOne b db t) b t.key = true := by
  rw [Es.insertOne]
  by_cases hc : Es.hasKey db b t.key = true
  · rw [if_pos hc]; exact hc
  · rw [if_neg hc]
    rw [Es.hasKey, List.any_append]
    have : Es.hasKey [Es.insertedRow b t] b t.key = true := by
      rw [Es.hasKey]
      simp [Es.insertedRow, Es.Task.key, Es.orElse]
    rw [Es.hasKey] at this
    simp only [this, Bool.or_true]

/-- After `insert_tasks`, every inserted task's pair is present. -/
theorem hasKey_insertTasks_of_mem (b : String) :
    ∀ (ts : List Es.Task) (db : List Es.Task) (t : Es.Task), t ∈ ts →
      Es.hasKey (Es.insertTasks db b ts) b t.key = true := by
  intro ts
  induction ts with
  | nil => intro db t ht; simp at ht
  | cons x tl ih =>
    intro db t ht
    rcases List.mem_cons.mp ht with rfl | ht
    · exact hasKey_insertTasks b t.key tl (Es.insertOne b db t)
        (hasKey_insertOne_self db b t)
    · exact ih (Es.insertOne b db x) t ht

/-- When every task's pair is already present, `insert_tasks` is the
identity. -/
theorem insertTasks_of_all_present (b : String) :
    ∀ (ts : List Es.Task) (db : List Es.Task),
      (∀ t ∈ ts, Es.hasKey db b t.key = true) → Es.insertTasks db b ts = db := by
  intro ts
  induction ts with
  | nil => intro db _; rfl
  | cons x tl ih =>
    intro db h
    have hx : Es.insertOne b db x = db := by
      rw [Es.insertOne, if_pos (h x (List.mem_cons_self x tl))]
    show Es.insertTasks (Es.insertOne b db x) b tl = db
    rw [hx]
    exact ih db fun t ht => h t (List.mem_cons_of_mem x ht)

/-- C7 counterexample: `insert_tasks` of `src/esdata_run/core/database.py`
is a plain `INSERT` with no unique constraint, so inserting the same task a
second time changes the stored set: the store ends up with two rows. -/
theorem C7_insert_not_idempotent_counterexample :
    RunPkg.insertTasks (RunPkg.insertTasks [] [Fix.c3Primary]) [Fix.c3Primary] ≠
      RunPkg.insertTasks [] [Fix.c3Primary] ∧
    (RunPkg.insertTasks (RunPkg.insertTasks [] [Fix.c3Primary]) [Fix.c3Primary]).length
      = 2 := by decide

/-- C7 amended: `insert_tasks` of `src/esdata/database.py` is idempotent —
re-inserting the same tasks into the same batch leaves the store unchanged,
because `INSERT OR IGNORE` together with the unique index on
`(batch_id, task_key)` skips every existing pair; `insert_tasks` of
`src/esdata_run/core/database.py` appends unconditionally, so re-planning
duplicates every row. -/
theorem C7_planner_insert_idempotence
    (db : List Es.Task) (b : String) (ts : List Es.Task)
    (rdb : List RunPkg.Task) (rts : List RunPkg.Task) :
    Es.insertTasks (Es.insertTasks db b ts) b ts = Es.insertTasks db b ts ∧
    (RunPkg.insertTasks (RunPkg.insertTasks rdb rts) rts).length
      = rdb.length + rts.length + rts.length := by
  constructor
  · exact insertTasks_of_all_present b ts (Es.insertTasks db b ts)
      fun t ht => hasKey_insertTasks_of_mem b ts db t ht
  · rw [RunPkg.insertTasks, RunPkg.insertTasks]
    simp [List.enum_length]
    omega

/-- C8: the completion contract of `ScraperAdapter.run` in
`src/esdata_run/core/scraper_adapter.py`.  The adapter reports success —
returning the declared output file path — exactly when a child process was
spawned, it exited with code 0, and the declared output file exists with
size greater than zero; exit code 0 with a missing or empty output file is a
failure, and a non-zero exit code is a failure.  Any successful result
carries precisely the declared output path. -/
theorem C8_child_completion_contract (scriptExists interpreterFound : Bool)
    (exitCode : Int) (fs : String → Option Nat) (isDetail : Bool)
    (dep : Option String) (out name : String) :
    ((Adapter.run scriptExists interpreterFound exitCode fs isDetail dep out name).result
        = .ok out ↔
      ((Adapter.run scriptExists interpreterFound exitCode fs isDetail dep out name).spawned
          = true ∧
       (Adapter.run scriptExists interpreterFound exitCode fs isDetail dep out name).exitCode
          = some 0 ∧
       ∃ n, fs out = some n ∧ 0 < n)) ∧
    (∀ p, (Adapter.run scriptExists interpreterFound exitCode fs isDetail dep out name).result
        = .ok p → p = out) := by
  cases scriptExists with
  | false => simp [Adapter.run]
  | true =>
    by_cases hpre : Adapter.preflightRejects isDetail dep fs = true
    · simp [Adapter.run, hpre]
    · rw [Bool.not_eq_true] at hpre
      cases interpreterFound with
      | false => simp [Adapter.run, hpre]
      | true =>
        by_cases hec : exitCode = 0
        · subst hec
          rcases hout : fs out with _ | n
          · simp [Adapter.run, hpre, hout]
          · by_cases hn : 0 < n
            · simp [Adapter.run, hpre, hout, hn]
            · simp [Adapter.run, hpre, hout, hn]
        · simp [Adapter.run, hpre, hec]

/-- C9 counterexample: the preflight of line 44 of
`src/esdata_run/core/scraper_adapter.py` does not fire for a detail item
whose `dependency_path` is `None` (falsy) or names an existing empty file —
in both cases a child process is spawned, and with `dependency_path = None`
the run even succeeds — contradicting the claim that such items fail
immediately with no child spawned. -/
theorem C9_preflight_gap_counterexample :
    (Adapter.run true true 0
      (fun p => if p = "out.csv" then some 10 else if p = "dep.csv" then some 0 else none)
      true none "out.csv" "inm24_det").spawned = true ∧
    (Adapter.run true true 0
      (fun p => if p = "out.csv" then some 10 else if p = "dep.csv" then some 0 else none)
      true none "out.csv" "inm24_det").result = .ok "out.csv" ∧
    (Adapter.run true true 0
      (fun p => if p = "out.csv" then some 10 else if p = "dep.csv" then some 0 else none)
      true (some "dep.csv") "out.csv" "inm24_det").spawned = true := by decide

/-- C9 amended: the preflight of `ScraperAdapter.run` rejects — failing
before any child is spawned, with the dependency-unavailable error — exactly
those detail items whose `dependency_path` is a non-empty string naming a
file that does not exist; a detail item with `dependency_path = None`, or
whose dependency file exists (even empty), proceeds to spawn the child. -/
theorem C9_detail_preflight_amended (interpreterFound : Bool)
    (exitCode : Int) (fs : String → Option Nat) (dep : Option String)
    (out name d : String) (hint : interpreterFound = true) :
    (dep = some d → ¬d = "" → fs d = none →
      (Adapter.run true interpreterFound exitCode fs true dep out name).spawned = false ∧
      (Adapter.run true interpreterFound exitCode fs true dep out name).result =
        .error "Archivo de dependencia para scraper de detalle no disponible") ∧
    (dep = none →
      (Adapter.run true interpreterFound exitCode fs true dep out name).spawned = true) ∧
    (∀ sz, dep = some d → fs d = some sz →
      (Adapter.run true interpreterFound exitCode fs true dep out name).spawned = true) := by
  subst hint
  have hspawn : ∀ dp, Adapter.preflightRejects true dp fs = false →
      (Adapter.run true true exitCode fs true dp out name).spawned = true := by
    intro dp hpre
    by_cases hec : exitCode = 0
    · subst hec
      rcases hout : fs out with _ | n
      · simp [Adapter.run, hpre, hout]
      · by_cases hn : 0 < n
        · simp [Adapter.run, hpre, hout, hn]
        · simp [Adapter.run, hpre, hout, hn]
    · simp [Adapter.run, hpre, hec]
  refine ⟨?_, ?_, ?_⟩
  · rintro rfl hd hfs
    have hpre : Adapter.preflightRejects true (some d) fs = true := by
      simp [Adapter.preflightRejects, hd, hfs]
    constructor
    · simp [Adapter.run, hpre]
    · simp [Adapter.run, hpre]
  · rintro rfl
    exact hspawn none (by simp [Adapter.preflightRejects])
  · rintro sz rfl hfs
    exact hspawn (some d) (by simp [Adapter.preflightRejects, hfs])

/-- C9 witness: the amended theorem applied to a concrete rejected
dependency, a concrete absent dependency, and a concrete empty-but-existing
dependency. -/
theorem C9_detail_preflight_amended_witness :
    ((Adapter.run true true 0 (fun p => if p = "dep.csv" then some 0 else none)
        true (some "missing.csv") "out.csv" "inm24_det").spawned = false ∧
     (Adapter.run true true 0 (fun p => if p = "dep.csv" then some 0 else none)
        true (some "missing.csv") "out.csv" "inm24_det").result =
          .error "Archivo de dependencia para scraper de detalle no disponible") ∧
    (Adapter.run true true 0 (fun p => if p = "dep.csv" then some 0 else none)
        true none "out.csv" "inm24_det").spawned = true ∧
    (Adapter.run true true 0 (fun p => if p = "dep.csv" then some 0 else none)
        true (some "dep.csv") "out.csv" "inm24_det").spawned = true := by
  have h1 := C9_detail_preflight_amended true 0
    (fun p => if p = "dep.csv" then some 0 else none) (some "missing.csv")
    "out.csv" "inm24_det" "missing.csv" rfl
  have h2 := C9_detail_preflight_amended true 0
    (fun p => if p = "dep.csv" then some 0 else none) none
    "out.csv" "inm24_det" "dep.csv" rfl
  have h3 := C9_detail_preflight_amended true 0
    (fun p => if p = "dep.csv" then some 0 else none) (some "dep.csv")
    "out.csv" "inm24_det" "dep.csv" rfl
  exact ⟨h1.1 rfl (by decide) (by decide), h2.2.1 rfl, h3.2.2 0 rfl (by decide)⟩

/-- The second component of `release_detail_tasks` is always the list of
rows matching the SELECT, as read before the UPDATE. -/
theorem releaseDetailTasks_snd (db : List Es.Task) (mt : Es.Task) (p : String) :
    (Es.releaseDetailTasks db mt p).2 =
      db.filter (Es.releaseMatch mt.batchId mt.key) := by
  rw [Es.releaseDetailTasks]
  by_cases h : (db.filter (Es.releaseMatch mt.batchId mt.key)).isEmpty = true
  · simp only [h, if_true]
    exact (List.isEmpty_iff.mp h).symm
  · rw [if_neg h]

/-- The first component of `release_detail_tasks` rewrites exactly the
matching rows to `'pending'` with the dependency path filled in. -/
theorem releaseDetailTasks_fst (db : List Es.Task) (mt : Es.Task) (p : String) :
    (Es.releaseDetailTasks db mt p).1 =
      db.map (fun x => if Es.releaseMatch mt.batchId mt.key x
        then { x with status := .pending, dependencyPath := some p } else x) := by
  rw [Es.releaseDetailTasks]
  by_cases h : (db.filter (Es.releaseMatch mt.batchId mt.key)).isEmpty = true
  · simp only [h, if_true]
    have hnil := List.isEmpty_iff.mp h
    have hnone : ∀ x ∈ db, ¬(Es.releaseMatch mt.batchId mt.key x = true) := by
      intro x hx hmatch
      have : x ∈ db.filter (Es.releaseMatch mt.batchId mt.key) :=
        List.mem_filter.mpr ⟨hx, hmatch⟩
      rw [hnil] at this
      simp at this
    have : db.map (fun x => if Es.releaseMatch mt.batchId mt.key x
        then { x with status := TaskStatus.pending, dependencyPath := some p }
        else x) = db.map id := by
      apply List.map_congr_left
      intro x hx
      rw [if_neg (hnone x hx)]
      rfl
    rw [this, List.map_id]
  · rw [if_neg h]

/-- Likewise for `release_detail_tasks_for` of
`src/esdata_run/core/database.py`: the returned tasks are the selected rows
as read before the update. -/
theorem releaseDetailTasksFor_snd (rdb : List RunPkg.Task) (k p : String) :
    (RunPkg.releaseDetailTasksFor rdb k p).2 =
      rdb.filter (fun r => r.dependsOn = some k ∧ r.status = .blocked) := by
  rw [RunPkg.releaseDetailTasksFor]
  by_cases h : (rdb.filter
      (fun r => r.dependsOn = some k ∧ r.status = .blocked)).isEmpty = true
  · simp only [h, if_true]
    exact (List.isEmpty_iff.mp h).symm
  · rw [if_neg h]

/-- C4: detail unblocking.  The `src/esdata` store's release operation
rewrites every blocked detail row whose `depends_on` equals the completed
primary's key to `'pending'` with `dependency_path` set to the supplied
path, leaves every other row unchanged, and returns the selected rows; the
success branch of the reap loop appends the returned rows to the detail
queue.  Rows stay `'blocked'` across the other scheduler steps: a failure
reap and a launch of a different item leave them untouched. -/
theorem C4_detail_unblocking
    (db : List Es.Task) (mt : Es.Task) (p : String) (s : Es.State)
    (t r : Es.Task) (e : String) (cfg : Es.Config) (now : Nat) :
    ((Es.releaseDetailTasks db mt p).1 =
        db.map (fun x => if Es.releaseMatch mt.batchId mt.key x
          then { x with status := .pending, dependencyPath := some p } else x) ∧
     (Es.releaseDetailTasks db mt p).2 =
        db.filter (Es.releaseMatch mt.batchId mt.key)) ∧
    (r ∈ s.db → t.isDetail = false → ¬r.key = t.key →
      (Es.releaseMatch t.batchId t.key r = true →
        ({ r with status := .pending, dependencyPath := some p }
            ∈ (Es.reapSuccess t p s).db ∧
         r ∈ (Es.reapSuccess t p s).detailQueue)) ∧
      (Es.releaseMatch t.batchId t.key r = false →
        r ∈ (Es.reapSuccess t p s).db)) ∧
    (r ∈ s.db → ¬r.key = t.key → r ∈ (Es.reapFailure cfg t e now s).db) ∧
    (r ∈ db → ¬r.key = t.key → r ∈ Es.markTaskRunning db t now) := by
  have hmarkC : ∀ (l : List Es.Task), r ∈ l → ¬r.key = t.key →
      r ∈ Es.markTaskCompleted l t (some p) := by
    intro l hl hk
    rw [Es.markTaskCompleted]
    have := List.mem_map_of_mem
      (fun x : Es.Task =>
        if x.batchId = t.batchId ∧ x.key = t.key then
          { x with status := TaskStatus.completed, outputPath := some p }
        else x) hl
    simpa [hk] using this
  refine ⟨⟨releaseDetailTasks_fst db mt p, releaseDetailTasks_snd db mt p⟩,
    ?_, ?_, ?_⟩
  · intro hr ht hk
    constructor
    · intro hmatch
      have hrdb1 : r ∈ Es.markTaskCompleted s.db t (some p) := hmarkC s.db hr hk
      constructor
      · rw [Es.reapSuccess]
        simp only [ht, Bool.false_eq_true, not_false_eq_true, if_true]
        rw [releaseDetailTasks_fst]
        have := List.mem_map_of_mem
          (fun x : Es.Task => if Es.releaseMatch t.batchId t.key x
            then { x with status := TaskStatus.pending, dependencyPath := some p }
            else x) hrdb1
        simpa [hmatch] using this
      · rw [Es.reapSuccess]
        simp only [ht, Bool.false_eq_true, not_false_eq_true, if_true]
        rw [releaseDetailTasks_snd]
        refine List.mem_append_right _ ?_
        exact List.mem_filter.mpr ⟨hrdb1, hmatch⟩
    · intro hmatch
      have hrdb1 : r ∈ Es.markTaskCompleted s.db t (some p) := hmarkC s.db hr hk
      rw [Es.reapSuccess]
      simp only [ht, Bool.false_eq_true, not_false_eq_true, if_true]
      rw [releaseDetailTasks_fst]
      have := List.mem_map_of_mem
        (fun x : Es.Task => if Es.releaseMatch t.batchId t.key x
          then { x with status := TaskStatus.pending, dependencyPath := some p }
          else x) hrdb1
      simpa [hmatch] using this
  · intro hr hk
    rw [Es.reapFailure]
    split_ifs with hw
    · show r ∈ Es.markTaskFailed s.db t e _
      rw [Es.markTaskFailed]
      have := List.mem_map_of_mem
        (fun x : Es.Task =>
          if x.batchId = t.batchId ∧ x.key = t.key then
            { x with
              status := if t.attempts + 1 < t.maxAttempts then TaskStatus.retrying
                else TaskStatus.failed
              errorMessage := some e
              attempts := x.attempts + 1 }
          else x) hr
      simpa [hk] using this
    · show r ∈ Es.markTaskFailed s.db t e _
      rw [Es.markTaskFailed]
      have := List.mem_map_of_mem
        (fun x : Es.Task =>
          if x.batchId = t.batchId ∧ x.key = t.key then
            { x with
              status := if t.attempts + 1 < t.maxAttempts then TaskStatus.retrying
                else TaskStatus.failed
              errorMessage := some e
              attempts := x.attempts + 1 }
          else x) hr
      simpa [hk] using this
  · intro hr hk
    rw [Es.markTaskRunning]
    have := List.mem_map_of_mem
      (fun x : Es.Task =>
        if x.batchId = t.batchId ∧ x.key = t.key then
          { x with status := TaskStatus.running, startedAt := some now }
        else x) hr
    simpa [hk] using this

/-- C4 witness: reaping the success of `c4Primary` in the concrete state
`c4S` unblocks its dependent detail — the row becomes `'pending'` with
`dependency_path = c4Out` — and enqueues the pre-update row. -/
theorem C4_detail_unblocking_witness :
    { Fix.c4Detail with status := TaskStatus.pending, dependencyPath := some Fix.c4Out }
      ∈ (Es.reapSuccess Fix.c4Primary Fix.c4Out Fix.c4S).db ∧
    Fix.c4Detail ∈ (Es.reapSuccess Fix.c4Primary Fix.c4Out Fix.c4S).detailQueue := by
  have h := C4_detail_unblocking Fix.c4Db Fix.c4Primary Fix.c4Out Fix.c4S
    Fix.c4Primary Fix.c4Detail "e" Fix.esCfg 9
  exact (h.2.1 (by decide) (by decide) (by decide)).1 (by decide)

/-- The environment prepared by `_prepare_environment` with
`dependency_path = None` contains no `SCRAPER_URL_LIST_FILE` entry. -/
theorem prepareEnvironment_no_urlList (isDetail : Bool) (outF baseDir : String)
    (batchId websiteCode cityCode operationCode productCode url mp rl :
      Option String) :
    Adapter.envLookup
      (Adapter.prepareEnvironment isDetail outF baseDir batchId websiteCode
        cityCode operationCode productCode url none mp rl)
      "SCRAPER_URL_LIST_FILE" = none := by
  rcases websiteCode with _ | wc <;> rcases cityCode with _ | cc <;>
    rcases operationCode with _ | oc <;> rcases productCode with _ | pc <;>
    rcases mp with _ | mpv <;> rcases rl with _ | rlv <;> rfl

/-- C10: the tasks returned by the store's detail-release operation are
materialised from the rows as read before the unblock UPDATE: every
returned task still has status `'blocked'` and (being a never-released
blocked row) a `None` dependency path, so the adapter environment built for
it carries no `SCRAPER_URL_LIST_FILE` variable.  The
`src/esdata_run/core/database.py` release likewise returns the pre-update
rows, still in status `'blocked'`. -/
theorem C10_release_returns_stale_snapshot
    (db : List Es.Task) (mt : Es.Task) (p : String)
    (rdb : List RunPkg.Task) (k : String)
    (hblocked : ∀ r ∈ db, r.status = .blocked → r.dependencyPath = none) :
    (∀ t ∈ (Es.releaseDetailTasks db mt p).2,
       t.status = .blocked ∧ t.dependencyPath = none ∧
       ∀ outF baseDir mp rl,
         Adapter.envLookup
           (Adapter.prepareEnvironment t.isDetail outF baseDir t.batchId
             t.websiteCode t.cityCode t.operationCode t.productCode
             (some t.url) t.dependencyPath mp rl) "SCRAPER_URL_LIST_FILE"
           = none) ∧
    (∀ t ∈ (RunPkg.releaseDetailTasksFor rdb k p).2, t.status = .blocked) := by
  constructor
  · intro t ht
    rw [releaseDetailTasks_snd] at ht
    have hmem := List.mem_filter.mp ht
    have hmatch := hmem.2
    rw [Es.releaseMatch] at hmatch
    simp only [Bool.and_eq_true, decide_eq_true_eq] at hmatch
    have hstatus : t.status = TaskStatus.blocked := hmatch.2.2.2
    have hdep : t.dependencyPath = none := hblocked t hmem.1 hstatus
    refine ⟨hstatus, hdep, ?_⟩
    intro outF baseDir mp rl
    rw [hdep]
    exact prepareEnvironment_no_urlList t.isDetail outF baseDir t.batchId
      t.websiteCode t.cityCode t.operationCode t.productCode (some t.url) mp rl
  · intro t ht
    rw [releaseDetailTasksFor_snd] at ht
    have hmem := List.mem_filter.mp ht
    have := hmem.2
    simp only [Bool.and_eq_true, decide_eq_true_eq] at this
    exact this.2

/-- C10 witness: releasing the details of `c4Primary` from the concrete
store `c4Db` returns the detail row still `'blocked'` with no dependency
path, and the environment the adapter would build for it has no
`SCRAPER_URL_LIST_FILE` entry. -/
theorem C10_release_returns_stale_snapshot_witness :
    Fix.c4Detail.status = TaskStatus.blocked ∧
    Fix.c4Detail.dependencyPath = none ∧
    Adapter.envLookup
      (Adapter.prepareEnvironment Fix.c4Detail.isDetail "out.csv" "/base"
        Fix.c4Detail.batchId Fix.c4Detail.websiteCode Fix.c4Detail.cityCode
        Fix.c4Detail.operationCode Fix.c4Detail.productCode
        (some Fix.c4Detail.url) Fix.c4Detail.dependencyPath none none)
      "SCRAPER_URL_LIST_FILE" = none := by
  have h := C10_release_returns_stale_snapshot Fix.c4Db Fix.c4Primary Fix.c4Out
    [] "k" (by decide)
  have hm : Fix.c4Detail ∈ (Es.releaseDetailTasks Fix.c4Db Fix.c4Primary Fix.c4Out).2 := by
    rw [releaseDetailTasks_snd]
    decide
  obtain ⟨h1, h2, h3⟩ := h.1 Fix.c4Detail hm
  exact ⟨h1, h2, h3 "out.csv" "/base" none none⟩

end Esdata710
